import Mathlib

/-!
# Verification of the postgresql-perf MCP server (postgresqlperf.py)

A shallow embedding of the connection-scoped query execution gateway and the
eight registered tools of `src/postgresqlperf.py`, together with proofs of the
behavioural properties stated in the specification.

Modelling conventions:
* Python exceptions crossing the gateway boundary are values of `PyErr`; a
  function that may raise returns `Except PyErr α`.
* The external database server is a pure state `DbState`; each SQL string the
  program sends is embedded as a Lean function `DbState → List row`, written
  from the SQL text itself.
* The nondeterministic environment of one invocation (does `psycopg.connect`
  raise? does `cursor.execute` raise? does `Connection.close` raise?) is
  captured by the `Option String` fields of `Env`; `none` means the call
  succeeds, `some msg` means it raises a driver-level exception whose
  `str(e)` is `msg`.
* `print` logging is a side effect outside the model.
-/

/-- Python-level exceptions that can cross the gateway boundary: the program's
own `DatabaseError` class (postgresqlperf.py line 25) and any other exception
originating in the psycopg driver, each carrying its message (`str(e)`). -/
inductive PyErr where
  | databaseError (msg : String)
  | driverError (msg : String)
deriving DecidableEq, Repr

/-- `str(e)` of an exception: its message. -/
def PyErr.str : PyErr → String
  | .databaseError m => m
  | .driverError m => m

/-- One row of `information_schema.tables`, together with the byte size that
`pg_total_relation_size` reports for the table. -/
structure TableRow where
  table_schema : String
  table_name : String
  total_relation_size : Nat
deriving DecidableEq, Repr

/-- One row of `information_schema.columns` (the fields the program reads). -/
structure ColumnRow where
  table_name : String
  column_name : String
  data_type : String
deriving DecidableEq, Repr

/-- One row of `pg_database` (the fields the program reads). -/
structure DatabaseRow where
  oid : Nat
  datname : String
deriving DecidableEq, Repr

/-- One row of `pg_stat_activity`; `query_start` is `NULL` when `none`.
The start time is an abstract timestamp. -/
structure ActivityRow where
  pid : Nat
  query : String
  state : String
  query_start : Option Int
deriving DecidableEq, Repr

/-- One row of `pg_stat_statements` (the fields the program reads); the
cumulative and mean times are rationals standing for the view's doubles. -/
structure StatementRow where
  userid : Nat
  dbid : Nat
  query : String
  calls : Nat
  rows : Nat
  total_exec_time : ℚ
  total_plan_time : ℚ
  mean_exec_time : ℚ
  mean_plan_time : ℚ
deriving DecidableEq, Repr

/-- The catalog and statistics views of the database server, as visible to the
program's eight fixed queries. -/
structure DbState where
  tables : List TableRow
  columns : List ColumnRow
  schemata : List String
  databases : List DatabaseRow
  activity : List ActivityRow
  statements : List StatementRow
deriving DecidableEq, Repr

/-- The environment of one tool invocation: the database state and the outcome
of the three fallible driver calls of the gateway.  `connectError = some m`
means `psycopg.connect` (or the conninfo parse) raises with message `m`;
`execError` likewise for `cursor.execute`/`fetchall`; `closeError` for
`Connection.close` in the gateway's `finally` block. -/
structure Env where
  db : DbState
  connectError : Option String := none
  execError : Option String := none
  closeError : Option String := none
deriving DecidableEq, Repr

/-- Session lifecycle events of one pass through the gateway
(`get_db_connection`, postgresqlperf.py lines 29-48): the connect attempt, the
successful creation of the session, and the call of `Connection.close` in the
`finally` block — which either returns (`sessionClosed`) or raises
(`closeRaised`). -/
inductive GEvent where
  | connectAttempt
  | sessionCreated
  | sessionClosed
  | closeRaised
deriving DecidableEq, Repr

/-- The `@contextmanager get_db_connection` generator combined with the
`with`-statement protocol of its caller (postgresqlperf.py lines 29-48),
instrumented with the session lifecycle events.  Control flow, mirroring
Python:
* `psycopg.connect` raises → the `except Exception` clause re-raises
  `DatabaseError("Failed to connect to database: " + str(e))`; `connection`
  was never bound, so the `finally` block does not close anything;
* the body (the code under the `with`) raises → the exception is thrown into
  the generator at the `yield`, the `except Exception` clause re-raises it
  wrapped as `DatabaseError("Failed to connect to database: " + str(e))`,
  and the `finally` block closes the connection;
* on every path on which the connection was created, the `finally` block calls
  `connection.close()`; an exception raised by `close` is NOT caught by the
  generator's `except` clause (a `finally` block's exception is not seen by
  the `except` clauses of its own `try`) and replaces the in-flight result or
  exception. -/
def get_db_connection_run {α : Type} (env : Env) (body : DbState → Except PyErr α) :
    Except PyErr α × List GEvent :=
  match env.connectError with
  | some e =>
      (.error (.databaseError ("Failed to connect to database: " ++ e)),
       [GEvent.connectAttempt])
  | none =>
      let tryResult : Except PyErr α :=
        match body env.db with
        | .ok a => .ok a
        | .error e =>
            .error (.databaseError ("Failed to connect to database: " ++ PyErr.str e))
      match env.closeError with
      | some ce =>
          (.error (.driverError ce),
           [GEvent.connectAttempt, GEvent.sessionCreated, GEvent.closeRaised])
      | none =>
          (tryResult,
           [GEvent.connectAttempt, GEvent.sessionCreated, GEvent.sessionClosed])

/-- The value a caller of the gateway observes (the events forgotten). -/
def get_db_connection {α : Type} (env : Env) (body : DbState → Except PyErr α) :
    Except PyErr α :=
  (get_db_connection_run env body).1

/-- Whether an event is a call of `Connection.close`. -/
def isCloseCall : GEvent → Bool
  | .sessionClosed => true
  | .closeRaised => true
  | _ => false

/-- How many times one pass through the gateway called `Connection.close`. -/
def closeCallCount (evs : List GEvent) : Nat :=
  (evs.filter isCloseCall).length

/-- `execute_query(connection, query)` (postgresqlperf.py lines 50-66): runs
one statement and fetches all rows; any exception is re-raised as
`DatabaseError("Failed to execute query: " + str(e))`.  The SQL string's
meaning is the function `runQuery`; `execError` is the environment's verdict
on whether the driver raises during execution. -/
def execute_query {α : Type} (connection : DbState) (execError : Option String)
    (runQuery : DbState → List α) : Except PyErr (List α) :=
  match execError with
  | some e => .error (.databaseError ("Failed to execute query: " ++ e))
  | none => .ok (runQuery connection)

/-- The `try ... except DatabaseError: return []` wrapper shared by all eight
tools (e.g. postgresqlperf.py lines 80-86): a raised `DatabaseError` is
swallowed and replaced by the fallback; any other exception propagates. -/
def catchDatabaseError {α : Type} (r : Except PyErr α) (fallback : α) :
    Except PyErr α :=
  match r with
  | .error (.databaseError _) => .ok fallback
  | r => r

/-- Modelled external collaborator: PostgreSQL's `pg_size_pretty(bigint)`
renders a byte count in the nearest unit.  Only the fact that it yields one
string per table matters to any claim; the digit strings follow PostgreSQL's
half-rounded unit scaling. -/
def pg_size_pretty (bytes : Nat) : String :=
  if bytes < 10 * 1024 then toString bytes ++ " bytes"
  else if bytes < 10 * 1024 * 1024 then toString ((bytes / 512 + 1) / 2) ++ " kB"
  else if bytes < 10 * 1024 * 1024 * 1024 then
    toString ((bytes / (512 * 1024) + 1) / 2) ++ " MB"
  else if bytes < 10 * 1024 * 1024 * 1024 * 1024 then
    toString ((bytes / (512 * 1024 * 1024) + 1) / 2) ++ " GB"
  else toString ((bytes / (512 * 1024 * 1024 * 1024) + 1) / 2) ++ " TB"

/-- Modelled external collaborator: PostgreSQL's `round(numeric)` rounds half
away from zero. -/
def pgRoundHalfAway (x : ℚ) : ℤ :=
  if 0 ≤ x then ⌊x + 1 / 2⌋ else ⌈x - 1 / 2⌉

/-- `round(x::numeric, 2)`: round to two decimal places, half away from
zero. -/
def pgRound2 (x : ℚ) : ℚ :=
  (pgRoundHalfAway (x * 100) : ℚ) / 100

/-- `ORDER BY key DESC`: sort a row list by a key, largest first (a stable
refinement of PostgreSQL's tie-unspecified sort). -/
def sortDescBy {α β : Type} [LinearOrder β] (key : α → β) (l : List α) : List α :=
  @List.insertionSort α (fun a b => key b ≤ key a)
    (fun a b => inferInstanceAs (Decidable (key b ≤ key a))) l

/-- `SELECT table_name FROM information_schema.tables WHERE table_schema =
'<schema_name>'` (postgresqlperf.py line 82).  Single-column rows are
modelled by their one value. -/
def sql_table_names (schema_name : String) (db : DbState) : List String :=
  (db.tables.filter (fun t => t.table_schema == schema_name)).map
    (fun t => t.table_name)

/-- `SELECT column_name, data_type FROM information_schema.columns WHERE
table_name = '<table>'` (postgresqlperf.py line 99). -/
def sql_table_definition (table : String) (db : DbState) :
    List (String × String) :=
  (db.columns.filter (fun c => c.table_name == table)).map
    (fun c => (c.column_name, c.data_type))

/-- `SELECT schema_name FROM information_schema.schemata;`
(postgresqlperf.py line 116). -/
def sql_schema_names (db : DbState) : List String :=
  db.schemata

/-- `SELECT datname FROM pg_database;` (postgresqlperf.py line 133). -/
def sql_database_names (db : DbState) : List String :=
  db.databases.map (fun d => d.datname)

/-- `SELECT table_name, pg_size_pretty(pg_total_relation_size(
quote_ident(table_name))) AS size FROM information_schema.tables WHERE
table_schema = '<schema>'` (postgresqlperf.py line 151). -/
def sql_tables_size (schema : String) (db : DbState) :
    List (String × String) :=
  (db.tables.filter (fun t => t.table_schema == schema)).map
    (fun t => (t.table_name, pg_size_pretty t.total_relation_size))

/-- An output row of the `list_running_queries` query. -/
structure RunningRow where
  pid : Nat
  query : String
  state : String
  query_start : Int
deriving DecidableEq, Repr

/-- `SELECT pid, query, state, query_start FROM pg_stat_activity WHERE
query_start IS NOT NULL ORDER BY query_start DESC;`
(postgresqlperf.py line 166). -/
def sql_running_queries (db : DbState) : List RunningRow :=
  sortDescBy (fun r => r.query_start)
    (db.activity.filterMap (fun a =>
      a.query_start.map (fun t => RunningRow.mk a.pid a.query a.state t)))

/-- An output row of the `list_top_running_queries_by_running_time` query. -/
structure TimeRow where
  query : String
  calls : Nat
  total_exec_time : ℚ
  rows : Nat
deriving DecidableEq, Repr

/-- `SELECT query,calls,total_exec_time,rows FROM pg_stat_statements ORDER BY
total_exec_time DESC LIMIT 10;` (postgresqlperf.py line 181). -/
def sql_top_by_time (db : DbState) : List TimeRow :=
  ((sortDescBy (fun s => s.total_exec_time) db.statements).take 10).map
    (fun s => TimeRow.mk s.query s.calls s.total_exec_time s.rows)

/-- An output row of the `list_top_running_queries_by_cpu` query. -/
structure CpuRow where
  userid : Nat
  dbid : Nat
  db_name : String
  total_time : ℚ
  calls : Nat
  mean : ℚ
  cpu_portion_pctg : ℚ
  short_query : String
deriving DecidableEq, Repr

/-- The sort key of the by-cpu query: `pss.total_exec_time +
pss.total_plan_time`. -/
def combinedTime (s : StatementRow) : ℚ :=
  s.total_exec_time + s.total_plan_time

/-- The by-cpu query (postgresqlperf.py lines 196-208): joins
`pg_stat_statements pss, pg_database pd` on `pd.oid = pss.dbid`, computes the
rounded totals, the mean, the per-statement share of the instance-wide
combined time (`sum(...) OVER ()`, computed over the joined set before the
`LIMIT`), truncates the query text to 200 characters, and returns the rows
ordered by combined exec+plan time descending, `LIMIT 30`.  (In ℚ a zero
grand total makes the share 0 where PostgreSQL would error; no claim touches
the share's value.) -/
def sql_top_by_cpu (db : DbState) : List CpuRow :=
  let joined :=
    db.statements.flatMap (fun pss =>
      (db.databases.filter (fun pd => pd.oid == pss.dbid)).map (fun pd => (pss, pd)))
  let grandTotal : ℚ := (joined.map (fun p => combinedTime p.1)).sum
  ((sortDescBy (fun p => combinedTime p.1) joined).take 30).map (fun p =>
    { userid := p.1.userid
      dbid := p.1.dbid
      db_name := p.2.datname
      total_time := pgRound2 (combinedTime p.1)
      calls := p.1.calls
      mean := pgRound2 (p.1.mean_exec_time + p.1.mean_plan_time)
      cpu_portion_pctg := pgRound2 (100 * combinedTime p.1 / grandTotal)
      short_query := p.1.query.take 200 })

/-- Tool `get_table_names` (postgresqlperf.py lines 70-86); the inner map is
the `[row[0] for row in results]` comprehension on single-column rows. -/
def get_table_names (env : Env) (schema_name : String := "public") :
    Except PyErr (List String) :=
  catchDatabaseError
    (get_db_connection env (fun conn =>
      (execute_query conn env.execError (sql_table_names schema_name)).map
        (fun results => results.map (fun row => row))))
    []

/-- Tool `get_table_definition` (postgresqlperf.py lines 88-103). -/
def get_table_definition (env : Env) (table : String) :
    Except PyErr (List (String × String)) :=
  catchDatabaseError
    (get_db_connection env (fun conn =>
      execute_query conn env.execError (sql_table_definition table)))
    []

/-- Tool `get_schemas_names_for_current_db` (postgresqlperf.py lines
105-120); the inner map is the `[row[0] for row in results]` comprehension. -/
def get_schemas_names_for_current_db (env : Env) :
    Except PyErr (List String) :=
  catchDatabaseError
    (get_db_connection env (fun conn =>
      (execute_query conn env.execError sql_schema_names).map
        (fun results => results.map (fun row => row))))
    []

/-- Tool `get_list_of_databases` (postgresqlperf.py lines 122-137); the inner
map is the `[row[0] for row in results]` comprehension. -/
def get_list_of_databases (env : Env) : Except PyErr (List String) :=
  catchDatabaseError
    (get_db_connection env (fun conn =>
      (execute_query conn env.execError sql_database_names).map
        (fun results => results.map (fun row => row))))
    []

/-- Tool `get_tables_size` (postgresqlperf.py lines 140-155). -/
def get_tables_size (env : Env) (schema : String) :
    Except PyErr (List (String × String)) :=
  catchDatabaseError
    (get_db_connection env (fun conn =>
      execute_query conn env.execError (sql_tables_size schema)))
    []

/-- Tool `list_running_queries` (postgresqlperf.py lines 157-170). -/
def list_running_queries (env : Env) : Except PyErr (List RunningRow) :=
  catchDatabaseError
    (get_db_connection env (fun conn =>
      execute_query conn env.execError sql_running_queries))
    []

/-- Tool `list_top_running_queries_by_running_time`
(postgresqlperf.py lines 172-185). -/
def list_top_running_queries_by_running_time (env : Env) :
    Except PyErr (List TimeRow) :=
  catchDatabaseError
    (get_db_connection env (fun conn =>
      execute_query conn env.execError sql_top_by_time))
    []

/-- Tool `list_top_running_queries_by_cpu`
(postgresqlperf.py lines 187-212). -/
def list_top_running_queries_by_cpu (env : Env) :
    Except PyErr (List CpuRow) :=
  catchDatabaseError
    (get_db_connection env (fun conn =>
      execute_query conn env.execError sql_top_by_cpu))
    []

/-- Modelled from the spec's words, for comparison with `list_running_queries`
("running queries | none | active queries ordered by start time, descending"):
the queries whose backend state is `active`, ordered by start time
descending. -/
def spec_running_queries (db : DbState) : List RunningRow :=
  sortDescBy (fun r => r.query_start)
    (db.activity.filterMap (fun a =>
      if a.state == "active" then
        a.query_start.map (fun t => RunningRow.mk a.pid a.query a.state t)
      else none))

/-! ## Helper lemmas -/

theorem gateway_connect_fail {α : Type} (env : Env) (body : DbState → Except PyErr α)
    (e : String) (hc : env.connectError = some e) :
    get_db_connection env body =
      .error (.databaseError ("Failed to connect to database: " ++ e)) := by
  simp [get_db_connection, get_db_connection_run, hc]

theorem gateway_close_fail {α : Type} (env : Env) (body : DbState → Except PyErr α)
    (ce : String) (hc : env.connectError = none) (hcl : env.closeError = some ce) :
    get_db_connection env body = .error (.driverError ce) := by
  simp [get_db_connection, get_db_connection_run, hc, hcl]

theorem gateway_body_ok {α : Type} (env : Env) (body : DbState → Except PyErr α)
    (v : α) (hc : env.connectError = none) (hcl : env.closeError = none)
    (hb : body env.db = .ok v) :
    get_db_connection env body = .ok v := by
  simp [get_db_connection, get_db_connection_run, hc, hcl, hb]

theorem gateway_body_fail {α : Type} (env : Env) (body : DbState → Except PyErr α)
    (e : PyErr) (hc : env.connectError = none) (hcl : env.closeError = none)
    (hb : body env.db = .error e) :
    get_db_connection env body =
      .error (.databaseError ("Failed to connect to database: " ++ PyErr.str e)) := by
  simp [get_db_connection, get_db_connection_run, hc, hcl, hb]

theorem catch_gateway_connect_fail {α : Type} (env : Env)
    (body : DbState → Except PyErr α) (d : α) (e : String)
    (hc : env.connectError = some e) :
    catchDatabaseError (get_db_connection env body) d = .ok d := by
  rw [gateway_connect_fail env body e hc]; rfl

theorem catch_gateway_body_fail {α : Type} (env : Env)
    (body : DbState → Except PyErr α) (d : α) (e : PyErr)
    (hc : env.connectError = none) (hcl : env.closeError = none)
    (hb : body env.db = .error e) :
    catchDatabaseError (get_db_connection env body) d = .ok d := by
  rw [gateway_body_fail env body e hc hcl hb]; rfl

theorem catch_gateway_body_ok {α : Type} (env : Env)
    (body : DbState → Except PyErr α) (d : α) (v : α)
    (hc : env.connectError = none) (hcl : env.closeError = none)
    (hb : body env.db = .ok v) :
    catchDatabaseError (get_db_connection env body) d = .ok v := by
  rw [gateway_body_ok env body v hc hcl hb]; rfl

/-- When `Connection.close` does not raise, the tool wrapper never lets an
exception out: the gateway turns every body exception into a `DatabaseError`,
and the wrapper swallows those. -/
theorem catch_gateway_isOk {α : Type} (env : Env)
    (body : DbState → Except PyErr α) (d : α) (hcl : env.closeError = none) :
    ∃ v, catchDatabaseError (get_db_connection env body) d = .ok v := by
  rcases hc : env.connectError with _ | e
  · rcases hb : body env.db with e | v
    · exact ⟨d, catch_gateway_body_fail env body d e hc hcl hb⟩
    · exact ⟨v, catch_gateway_body_ok env body d v hc hcl hb⟩
  · exact ⟨d, catch_gateway_connect_fail env body d e hc⟩

/-- A tool whose body returns the query rows unchanged yields, when it yields
anything, either the swallowed-error empty list or the query's rows. -/
theorem tool_exec_direct_cases {α : Type} (env : Env) (q : DbState → List α)
    (out : List α)
    (h : catchDatabaseError
          (get_db_connection env (fun conn =>
            execute_query conn env.execError q)) [] = .ok out) :
    out = [] ∨ out = q env.db := by
  rcases hc : env.connectError with _ | e
  · rcases hcl : env.closeError with _ | ce
    · rcases hex : env.execError with _ | em
      · rw [catch_gateway_body_ok env _ [] (q env.db) hc hcl
          (by simp [execute_query, hex])] at h
        exact Or.inr (Except.ok.inj h).symm
      · rw [catch_gateway_body_fail env _ []
          (.databaseError ("Failed to execute query: " ++ em)) hc hcl
          (by simp [execute_query, hex])] at h
        exact Or.inl (Except.ok.inj h).symm
    · rw [gateway_close_fail env _ ce hc hcl] at h
      simp [catchDatabaseError] at h
  · rw [catch_gateway_connect_fail env _ [] e hc] at h
    exact Or.inl (Except.ok.inj h).symm

theorem sortDescBy_pairwise {α β : Type} [LinearOrder β] (key : α → β)
    (l : List α) :
    List.Pairwise (fun a b => key b ≤ key a) (sortDescBy key l) := by
  haveI : IsTotal α (fun a b => key b ≤ key a) :=
    ⟨fun a b => le_total (key b) (key a)⟩
  haveI : IsTrans α (fun a b => key b ≤ key a) :=
    ⟨fun _ _ _ h1 h2 => le_trans h2 h1⟩
  exact List.sorted_insertionSort _ l

theorem sortDescBy_perm {α β : Type} [LinearOrder β] (key : α → β)
    (l : List α) : List.Perm (sortDescBy key l) l :=
  List.perm_insertionSort _ l

theorem pgRoundHalfAway_mono {x y : ℚ} (h : x ≤ y) :
    pgRoundHalfAway x ≤ pgRoundHalfAway y := by
  unfold pgRoundHalfAway
  by_cases hx : 0 ≤ x <;> by_cases hy : 0 ≤ y
  · simp only [if_pos hx, if_pos hy]
    exact Int.floor_le_floor (by linarith)
  · exact absurd (le_trans hx h) hy
  · simp only [if_neg hx, if_pos hy]
    have h1 : (⌈x - 1 / 2⌉ : ℤ) ≤ 0 := by
      refine Int.ceil_le.mpr ?_
      push_cast
      linarith [not_le.mp hx]
    have h2 : (0 : ℤ) ≤ ⌊y + 1 / 2⌋ := Int.floor_nonneg.mpr (by linarith)
    exact le_trans h1 h2
  · simp only [if_neg hx, if_neg hy]
    exact Int.ceil_le_ceil (by linarith)

theorem pgRound2_mono {x y : ℚ} (h : x ≤ y) : pgRound2 x ≤ pgRound2 y := by
  unfold pgRound2
  have hm : pgRoundHalfAway (x * 100) ≤ pgRoundHalfAway (y * 100) :=
    pgRoundHalfAway_mono (by linarith)
  have : (pgRoundHalfAway (x * 100) : ℚ) ≤ (pgRoundHalfAway (y * 100) : ℚ) :=
    Int.cast_le.mpr hm
  linarith

/-- The by-cpu query yields at most 30 rows, whose (rounded) combined
exec+plan times are non-increasing down the list. -/
theorem sql_top_by_cpu_bounded_sorted (db : DbState) :
    (sql_top_by_cpu db).length ≤ 30 ∧
      List.Pairwise (fun a b : CpuRow => b.total_time ≤ a.total_time)
        (sql_top_by_cpu db) := by
  unfold sql_top_by_cpu
  constructor
  · simp only [List.length_map, List.length_take]
    exact min_le_left _ _
  · rw [List.pairwise_map]
    have hs := sortDescBy_pairwise
      (fun p : StatementRow × DatabaseRow => combinedTime p.1)
      (db.statements.flatMap (fun pss =>
        (db.databases.filter (fun pd => pd.oid == pss.dbid)).map
          (fun pd => (pss, pd))))
    have ht := List.Pairwise.sublist (List.take_sublist 30 _) hs
    exact ht.imp (fun hab => pgRound2_mono hab)

/-- The by-time query yields at most 10 rows, whose total execution times are
non-increasing down the list. -/
theorem sql_top_by_time_bounded_sorted (db : DbState) :
    (sql_top_by_time db).length ≤ 10 ∧
      List.Pairwise (fun a b : TimeRow => b.total_exec_time ≤ a.total_exec_time)
        (sql_top_by_time db) := by
  unfold sql_top_by_time
  constructor
  · simp only [List.length_map, List.length_take]
    exact min_le_left _ _
  · rw [List.pairwise_map]
    have hs := sortDescBy_pairwise (fun s : StatementRow => s.total_exec_time)
      db.statements
    have ht := List.Pairwise.sublist (List.take_sublist 10 _) hs
    exact ht.imp (fun hab => hab)

/-- Full evaluation of a tool whose body returns the query rows unchanged. -/
theorem catch_gateway_exec_eval {α : Type} (env : Env) (q : DbState → List α) :
    catchDatabaseError
        (get_db_connection env (fun conn => execute_query conn env.execError q))
        [] =
      match env.connectError, env.closeError, env.execError with
      | some _, _, _ => .ok []
      | none, some ce, _ => .error (.driverError ce)
      | none, none, some _ => .ok []
      | none, none, none => .ok (q env.db) := by
  rcases hc : env.connectError with _ | e <;>
    rcases hcl : env.closeError with _ | ce <;>
    rcases hex : env.execError with _ | em <;>
    simp [hc, hcl, hex, catchDatabaseError, get_db_connection,
      get_db_connection_run, execute_query]

/-- Full evaluation of a tool whose body post-processes the query rows with a
row comprehension `f`. -/
theorem catch_gateway_exec_map_eval {α β : Type} (env : Env)
    (q : DbState → List α) (f : List α → List β) :
    catchDatabaseError
        (get_db_connection env (fun conn =>
          (execute_query conn env.execError q).map f))
        [] =
      match env.connectError, env.closeError, env.execError with
      | some _, _, _ => .ok []
      | none, some ce, _ => .error (.driverError ce)
      | none, none, some _ => .ok []
      | none, none, none => .ok (f (q env.db)) := by
  rcases hc : env.connectError with _ | e <;>
    rcases hcl : env.closeError with _ | ce <;>
    rcases hex : env.execError with _ | em <;>
    simp [hc, hcl, hex, catchDatabaseError, get_db_connection,
      get_db_connection_run, execute_query, Except.map]

/-! ## Concrete fixtures -/

/-- The empty database state. -/
def db0 : DbState := ⟨[], [], [], [], [], []⟩

/-- An invocation environment in which `psycopg.connect` raises. -/
def envConnFail : Env :=
  { db := db0, connectError := some "connection refused" }

/-- An invocation environment in which the connection is created and the query
runs, but `Connection.close` raises in the gateway's `finally` block. -/
def envCloseBoom : Env := { db := db0, closeError := some "close failed" }

/-! ## Claims -/

/-- C2: for every use of the connection gateway, if a Session was successfully
created it is closed exactly once before control returns past the gateway's
scope — on a normal return, a return with zero rows (the body's value is
irrelevant to the event trace), or an exception during acquisition or query
execution; when no Session was created nothing is closed.  `Connection.close`
is called exactly once iff the session was created. -/
theorem session_closed_exactly_once_iff_created :
    ∀ {α : Type} (env : Env) (body : DbState → Except PyErr α),
    closeCallCount (get_db_connection_run env body).2 =
      if GEvent.sessionCreated ∈ (get_db_connection_run env body).2 then 1
      else 0 := by
  intro α env body
  rcases hc : env.connectError with _ | e
  · rcases hcl : env.closeError with _ | ce
    · simp [get_db_connection_run, hc, hcl, closeCallCount, isCloseCall]
    · simp [get_db_connection_run, hc, hcl, closeCallCount, isCloseCall]
  · simp [get_db_connection_run, hc, closeCallCount, isCloseCall]

/-- C3: every failure during connection acquisition surfaces to the gateway's
caller as the domain-level `DatabaseError` carrying a human-readable cause
string, and every failure during query execution makes `execute_query` raise
`DatabaseError` with the underlying message attached — an error value, so no
partial rows accompany it; in neither case does the caller observe the
driver's own exception. -/
theorem gateway_failures_surface_as_DatabaseError :
    (∀ (α : Type) (env : Env) (e : String) (body : DbState → Except PyErr α),
        env.connectError = some e →
        get_db_connection env body =
          .error (.databaseError ("Failed to connect to database: " ++ e))) ∧
    (∀ (α : Type) (conn : DbState) (e : String) (q : DbState → List α),
        execute_query conn (some e) q =
          .error (.databaseError ("Failed to execute query: " ++ e))) :=
  ⟨fun _ env e body hc => gateway_connect_fail env body e hc,
   fun _ _ _ _ => rfl⟩

/-- Witness for C3 at concrete inputs: a refused connection and a failing
statement both surface as `DatabaseError`. -/
theorem gateway_failures_surface_witness :
    get_db_connection envConnFail (fun _ => Except.ok ([] : List String)) =
      .error (.databaseError
        ("Failed to connect to database: " ++ "connection refused")) ∧
    execute_query db0 (some "syntax error at end of input")
        (fun _ => ([] : List (String × String))) =
      .error (.databaseError
        ("Failed to execute query: " ++ "syntax error at end of input")) :=
  ⟨gateway_failures_surface_as_DatabaseError.1 (List String) envConnFail
      "connection refused" _ rfl,
   gateway_failures_surface_as_DatabaseError.2 (String × String) db0
      "syntax error at end of input" _⟩

/-- Counterexample to C4 as stated: at a concrete input on which the Session
was created and `Connection.close` raises, the close error IS propagated to
the gateway's caller (the `finally` block does not suppress it). -/
theorem close_error_reaches_gateway_caller_cex :
    get_db_connection envCloseBoom (fun _ => Except.ok ([1] : List Nat)) =
      .error (.driverError "close failed") := rfl

/-- C4 (amended): on scope exit with a successfully created Session,
`Connection.close` is called, but a failure of `close` is NOT suppressed: it
propagates to the gateway's caller as the driver's exception, replacing the
operation's own result or error. -/
theorem close_error_propagates_to_gateway_caller :
    ∀ {α : Type} (env : Env) (body : DbState → Except PyErr α) (ce : String),
    env.connectError = none → env.closeError = some ce →
    get_db_connection env body = .error (.driverError ce) := by
  intro α env body ce hc hcl
  exact gateway_close_fail env body ce hc hcl

/-- Witness for the amended C4 at a concrete input. -/
theorem close_error_propagates_witness :
    get_db_connection envCloseBoom (fun _ => Except.ok ([] : List String)) =
      .error (.driverError "close failed") :=
  close_error_propagates_to_gateway_caller envCloseBoom _ "close failed" rfl rfl

/-- C10: any error raised by the body after the connection is established —
in particular the `DatabaseError` that `execute_query` raises — is caught by
the gateway's `except Exception` clause and re-raised as a fresh
`DatabaseError` whose message is the acquisition-failure prefix
`"Failed to connect to database:"` followed by the original message, so the
tool-level caller can distinguish neither the exception type nor the message
prefix from an acquisition failure. -/
theorem gateway_rewraps_body_errors :
    ∀ {α : Type} (env : Env) (body : DbState → Except PyErr α) (e : PyErr),
    env.connectError = none → env.closeError = none →
    body env.db = .error e →
    get_db_connection env body =
      .error (.databaseError
        ("Failed to connect to database: " ++ PyErr.str e)) ∧
    ∃ rest, "Failed to connect to database: " ++ PyErr.str e =
      "Failed to connect to database:" ++ rest := by
  intro α env body e hc hcl hb
  refine ⟨gateway_body_fail env body e hc hcl hb, ⟨" " ++ PyErr.str e, ?_⟩⟩
  rw [← String.append_assoc]
  exact congrArg (fun t => t ++ PyErr.str e) (by decide)

/-- Witness for C10 at a concrete input: a failing query inside the gateway's
scope surfaces as a connect-prefixed `DatabaseError`. -/
theorem gateway_rewraps_body_errors_witness :
    get_db_connection { db := db0 }
        (fun _ => Except.error (PyErr.databaseError
          "Failed to execute query: permission denied") :
          DbState → Except PyErr (List String)) =
      .error (.databaseError ("Failed to connect to database: " ++
        PyErr.str (PyErr.databaseError
          "Failed to execute query: permission denied"))) :=
  (gateway_rewraps_body_errors { db := db0 } _
    (PyErr.databaseError "Failed to execute query: permission denied")
    rfl rfl rfl).1

/-- C6: for the same schema name and the same invocation environment, the
`table sizes` tool reports exactly as many rows as the `list tables` tool —
both queries filter `information_schema.tables` by the same
`table_schema = '<schema>'` condition, and both tools fail (or swallow a
failure) identically. -/
theorem tables_size_count_eq_table_names_count :
    ∀ (env : Env) (schema : String),
    Except.map List.length (get_tables_size env schema) =
      Except.map List.length (get_table_names env schema) := by
  intro env schema
  unfold get_tables_size get_table_names
  rw [catch_gateway_exec_eval, catch_gateway_exec_map_eval]
  rcases env.connectError with _ | e <;>
    rcases env.closeError with _ | ce <;>
    rcases env.execError with _ | em <;>
    simp [Except.map, sql_tables_size, sql_table_names]

/-- The C9 fixture: a database whose `information_schema.columns` holds
exactly the rows of a table `t(id integer, name text)`. -/
def dbFix : DbState :=
  ⟨[], [⟨"t", "id", "integer"⟩, ⟨"t", "name", "text"⟩], [], [], [], []⟩

/-- An error-free invocation environment over the C9 fixture. -/
def envFix : Env := { db := dbFix }

/-- C9: against the fixture table `t(id integer, name text)`, the
`table definition` tool returns exactly the two rows `("id","integer")` and
`("name","text")`. -/
theorem table_definition_fixture_rows :
    get_table_definition envFix "t" =
      .ok [("id", "integer"), ("name", "text")] := rfl

/-- C5: every successful invocation of the `top queries by cpu` tool returns
at most 30 rows, and the combined (rounded) exec+plan time of consecutive
rows is non-increasing.  A swallowed failure returns the empty list, for
which both bounds hold trivially. -/
theorem top_queries_by_cpu_bounded_and_sorted :
    ∀ (env : Env) (out : List CpuRow),
    list_top_running_queries_by_cpu env = .ok out →
    out.length ≤ 30 ∧
      List.Chain' (fun a b => b.total_time ≤ a.total_time) out := by
  intro env out h
  unfold list_top_running_queries_by_cpu at h
  rcases tool_exec_direct_cases env sql_top_by_cpu out h with h0 | hq
  · subst h0
    exact ⟨by simp, List.chain'_nil⟩
  · subst hq
    obtain ⟨hlen, hpw⟩ := sql_top_by_cpu_bounded_sorted env.db
    exact ⟨hlen, hpw.chain'⟩

/-- The C5/C7 witness database: two statements over one known database. -/
def dbStatsW : DbState :=
  ⟨[], [], [], [⟨1, "postgres"⟩], [],
    [⟨10, 1, "SELECT 1", 5, 5, 3, 1, 1, 1⟩,
     ⟨10, 1, "SELECT 2", 2, 2, 9, 1, 2, 1⟩]⟩

/-- An error-free invocation environment over the statistics fixture. -/
def envStatsW : Env := { db := dbStatsW }

/-- Witness for C5 at a concrete input. -/
theorem top_queries_by_cpu_witness :
    (sql_top_by_cpu dbStatsW).length ≤ 30 ∧
      List.Chain' (fun a b : CpuRow => b.total_time ≤ a.total_time)
        (sql_top_by_cpu dbStatsW) :=
  top_queries_by_cpu_bounded_and_sorted envStatsW (sql_top_by_cpu dbStatsW) rfl

/-- C7: every successful invocation of the `top queries by time` tool returns
at most 10 rows, ranked by total execution time, non-increasing across
consecutive rows (ties in unspecified order).  A swallowed failure returns
the empty list, for which both bounds hold trivially. -/
theorem top_queries_by_time_bounded_and_sorted :
    ∀ (env : Env) (out : List TimeRow),
    list_top_running_queries_by_running_time env = .ok out →
    out.length ≤ 10 ∧
      List.Chain' (fun a b => b.total_exec_time ≤ a.total_exec_time) out := by
  intro env out h
  unfold list_top_running_queries_by_running_time at h
  rcases tool_exec_direct_cases env sql_top_by_time out h with h0 | hq
  · subst h0
    exact ⟨by simp, List.chain'_nil⟩
  · subst hq
    obtain ⟨hlen, hpw⟩ := sql_top_by_time_bounded_sorted env.db
    exact ⟨hlen, hpw.chain'⟩

/-- Witness for C7 at a concrete input. -/
theorem top_queries_by_time_witness :
    (sql_top_by_time dbStatsW).length ≤ 10 ∧
      List.Chain' (fun a b : TimeRow => b.total_exec_time ≤ a.total_exec_time)
        (sql_top_by_time dbStatsW) :=
  top_queries_by_time_bounded_and_sorted envStatsW (sql_top_by_time dbStatsW) rfl

/-- The C8 counterexample database: one `pg_stat_activity` row whose backend
is idle but whose last query's start time is not null. -/
def dbIdle : DbState :=
  ⟨[], [], [], [], [ActivityRow.mk 77 "SELECT 1" "idle" (some 5)], []⟩

/-- An error-free invocation environment over the idle-backend fixture. -/
def envIdle : Env := { db := dbIdle }

/-- Counterexample to C8 as stated: at a concrete input the `running queries`
tool does not return exactly the active queries of the server — it also
returns the idle backend's last query, because the SQL filters on
`query_start IS NOT NULL`, not on `state = 'active'`. -/
theorem running_queries_not_only_active_cex :
    list_running_queries envIdle ≠ .ok (spec_running_queries envIdle.db) := by
  intro h
  have h1 : list_running_queries envIdle =
      .ok [RunningRow.mk 77 "SELECT 1" "idle" 5] := rfl
  have h2 : spec_running_queries envIdle.db = [] := rfl
  rw [h1, h2] at h
  simp at h

/-- C8 (amended): every invocation of the `running queries` tool on which the
connection and the query succeed returns exactly the `pg_stat_activity` rows
with a non-null query start time — whatever their state, idle backends
included — ordered by query start time descending. -/
theorem running_queries_nonnull_start_sorted :
    ∀ (env : Env) (out : List RunningRow),
    env.connectError = none → env.execError = none →
    list_running_queries env = .ok out →
    List.Perm out (env.db.activity.filterMap (fun a =>
      a.query_start.map (fun t => RunningRow.mk a.pid a.query a.state t))) ∧
    List.Chain' (fun a b => b.query_start ≤ a.query_start) out := by
  intro env out hc hex h
  unfold list_running_queries at h
  rw [catch_gateway_exec_eval, hc, hex] at h
  rcases hcl : env.closeError with _ | ce <;> rw [hcl] at h <;> simp at h
  subst h
  constructor
  · unfold sql_running_queries
    exact sortDescBy_perm _ _
  · unfold sql_running_queries
    exact (sortDescBy_pairwise _ _).chain'

/-- The C8 witness database: an active query, an idle backend with a non-null
start, and a backend with a null start. -/
def dbRunW : DbState :=
  ⟨[], [], [], [],
    [ActivityRow.mk 1 "SELECT now()" "active" (some 10),
     ActivityRow.mk 2 "SELECT 1" "idle" (some 3),
     ActivityRow.mk 3 "" "idle" none], []⟩

/-- An error-free invocation environment over the activity fixture. -/
def envRunW : Env := { db := dbRunW }

/-- Witness for the amended C8 at a concrete input. -/
theorem running_queries_witness :
    List.Perm (sql_running_queries dbRunW)
        (dbRunW.activity.filterMap (fun a =>
          a.query_start.map (fun t => RunningRow.mk a.pid a.query a.state t))) ∧
    List.Chain' (fun a b : RunningRow => b.query_start ≤ a.query_start)
      (sql_running_queries dbRunW) :=
  running_queries_nonnull_start_sorted envRunW (sql_running_queries dbRunW)
    rfl rfl rfl

/-- Counterexample to C1 as stated: at a concrete input a tool invocation DOES
propagate an exception past its own boundary — when `Connection.close` raises
in the gateway's `finally` block, the escaping exception is not a
`DatabaseError`, so the tool's `except DatabaseError` clause does not catch
it. -/
theorem tool_propagates_close_error_cex :
    get_table_names envCloseBoom "public" =
      .error (.driverError "close failed") := rfl

/-- C1 (amended): provided `Connection.close` does not itself raise, no tool
invocation propagates an exception past its own boundary (first conjunct,
for all eight registered tools), and whenever the connection or the query
raises a `DatabaseError` the tool swallows it and returns the empty sequence
(second conjunct).  Logging is a side effect outside the model.  When `close`
raises, the error escapes the tool — see the counterexample. -/
theorem tools_swallow_DatabaseError_when_close_succeeds :
    ∀ (env : Env) (schema_name table schema : String),
    env.closeError = none →
    ((∃ v, get_table_names env schema_name = .ok v) ∧
     (∃ v, get_table_definition env table = .ok v) ∧
     (∃ v, get_schemas_names_for_current_db env = .ok v) ∧
     (∃ v, get_list_of_databases env = .ok v) ∧
     (∃ v, get_tables_size env schema = .ok v) ∧
     (∃ v, list_running_queries env = .ok v) ∧
     (∃ v, list_top_running_queries_by_running_time env = .ok v) ∧
     (∃ v, list_top_running_queries_by_cpu env = .ok v)) ∧
    (env.connectError = none ∧ env.execError = none ∨
     (get_table_names env schema_name = .ok [] ∧
      get_table_definition env table = .ok [] ∧
      get_schemas_names_for_current_db env = .ok [] ∧
      get_list_of_databases env = .ok [] ∧
      get_tables_size env schema = .ok [] ∧
      list_running_queries env = .ok [] ∧
      list_top_running_queries_by_running_time env = .ok [] ∧
      list_top_running_queries_by_cpu env = .ok [])) := by
  intro env schema_name table schema hcl
  constructor
  · exact ⟨catch_gateway_isOk env _ _ hcl, catch_gateway_isOk env _ _ hcl,
      catch_gateway_isOk env _ _ hcl, catch_gateway_isOk env _ _ hcl,
      catch_gateway_isOk env _ _ hcl, catch_gateway_isOk env _ _ hcl,
      catch_gateway_isOk env _ _ hcl, catch_gateway_isOk env _ _ hcl⟩
  · rcases hc : env.connectError with _ | e
    · rcases hex : env.execError with _ | em
      · exact Or.inl ⟨rfl, rfl⟩
      · refine Or.inr ⟨?_, ?_, ?_, ?_, ?_, ?_, ?_, ?_⟩ <;>
        · simp only [get_table_names, get_table_definition,
            get_schemas_names_for_current_db, get_list_of_databases,
            get_tables_size, list_running_queries,
            list_top_running_queries_by_running_time,
            list_top_running_queries_by_cpu,
            catch_gateway_exec_eval, catch_gateway_exec_map_eval]
          simp [hc, hcl, hex]
    · refine Or.inr ⟨?_, ?_, ?_, ?_, ?_, ?_, ?_, ?_⟩ <;>
      · simp only [get_table_names, get_table_definition,
          get_schemas_names_for_current_db, get_list_of_databases,
          get_tables_size, list_running_queries,
          list_top_running_queries_by_running_time,
          list_top_running_queries_by_cpu,
          catch_gateway_exec_eval, catch_gateway_exec_map_eval]
        simp [hc, hcl]

/-- Witness for the amended C1 at a concrete input: with a refused connection
(and `close` irrelevant because the Session was never created) the tools
return the empty sequence instead of raising. -/
theorem tools_swallow_witness :
    get_table_names envConnFail "public" = .ok [] ∧
    list_top_running_queries_by_cpu envConnFail = .ok [] := by
  have h := tools_swallow_DatabaseError_when_close_succeeds envConnFail
    "public" "t" "public" rfl
  rcases h.2 with ⟨hcn, _⟩ | hs
  · exact absurd hcn (by decide)
  · exact ⟨hs.1, hs.2.2.2.2.2.2.2⟩
